import Mathlib

set_option maxHeartbeats 1000000
set_option maxRecDepth 4000

/-!
Verification development for the Air Waybill Extractor application
(`src/main.py`).  The value model (`Json`), the presentation renderer
(`display_awb_data`), the response-recovery parsing step (`jsonSpan`,
`jsonDecode`), the button handler (`handle_response`) and the backend
wrapper (`extract_awb_data`) are shallow embeddings of the corresponding
Python code.
-/

namespace AWB

/--
Values produced by decoding JSON with the Python `json` module.
`int` and `float` mirror Python producing `int` for integer literals and
`float` otherwise; a float is modelled exactly as mantissa `m` times
`10 ^ e` (Python's binary floating point rounding is not modelled; no
claim depends on float arithmetic).  `nan` / `inf` model Python's
acceptance of `NaN` / `Infinity` / `-Infinity` literals.
-/
inductive Json where
  | null
  | bool (b : Bool)
  | int (n : Int)
  | float (m : Int) (e : Int)
  | nan
  | inf (neg : Bool)
  | str (s : String)
  | arr (elems : List Json)
  | obj (fields : List (String × Json))

/-- Lookup of a key in a decoded mapping, `d[k]` for a Python dict
(decoded dicts have unique keys, so first match equals dict lookup). -/
def jLookup (fields : List (String × Json)) (k : String) : Option Json :=
  match fields with
  | [] => none
  | (k', v) :: rest => if k' = k then some v else jLookup rest k

/-- Python `d.get(k, dflt)`. -/
def jGet (fields : List (String × Json)) (k : String) (dflt : Json) : Json :=
  (jLookup fields k).getD dflt

/-- Python `d.get(k)` (default `None`). -/
def jGetOpt (fields : List (String × Json)) (k : String) : Json :=
  jGet fields k Json.null

/-- Python `isinstance(v, dict)`. -/
def Json.isObj : Json → Bool
  | .obj _ => true
  | _ => false

/-- Python `isinstance(v, list)`. -/
def Json.isArr : Json → Bool
  | .arr _ => true
  | _ => false

/-- Python truthiness (`bool(v)`) of a JSON-decoded value. -/
def pyTruthy : Json → Bool
  | .null => false
  | .bool b => b
  | .int n => n != 0
  | .float m _ => m != 0
  | .nan => true
  | .inf _ => true
  | .str s => s != ""
  | .arr xs => !xs.isEmpty
  | .obj fs => !fs.isEmpty

/-- Python `type(v).__name__` for JSON-decoded values. -/
def pyTypeName : Json → String
  | .null => "NoneType"
  | .bool _ => "bool"
  | .int _ => "int"
  | .float _ _ => "float"
  | .nan => "float"
  | .inf _ => "float"
  | .str _ => "str"
  | .arr _ => "list"
  | .obj _ => "dict"

mutual
/-- Python `repr(v)` for JSON-decoded values.  Float rendering and
string-escape details inside `repr` are approximated (no claim inspects
them); `None`, booleans, integers and plain strings are exact. -/
def pyRepr : Json → String
  | .null => "None"
  | .bool true => "True"
  | .bool false => "False"
  | .int n => toString n
  | .float m e => toString m ++ "e" ++ toString e
  | .nan => "nan"
  | .inf true => "-inf"
  | .inf false => "inf"
  | .str s => "\x27" ++ s ++ "\x27"
  | .arr xs => "[" ++ pyReprList xs ++ "]"
  | .obj fs => "\x7b" ++ pyReprFields fs ++ "\x7d"

/-- `repr` of the elements of a Python list, comma separated. -/
def pyReprList : List Json → String
  | [] => ""
  | [x] => pyRepr x
  | x :: y :: rest => pyRepr x ++ ", " ++ pyReprList (y :: rest)

/-- `repr` of the items of a Python dict, comma separated. -/
def pyReprFields : List (String × Json) → String
  | [] => ""
  | [(k, v)] => "\x27" ++ k ++ "\x27: " ++ pyRepr v
  | (k, v) :: f :: rest => "\x27" ++ k ++ "\x27: " ++ pyRepr v ++ ", " ++ pyReprFields (f :: rest)
end

/-- Python `str(v)`: identity on strings, `repr` otherwise (as for the
types produced by JSON decoding).  This is the cast applied by f-string
interpolation and by Streamlit widget values. -/
def pyStr : Json → String
  | .str s => s
  | v => pyRepr v

/--
One visible output element emitted by the renderer.  `md` models a
`st.markdown` call whose text contains no interpolated data; `field`
models a `st.markdown` f-string line interpolating one value (stored
after the `str` cast); `field2` one interpolating two values;
`textArea` a `st.text_area` (Streamlit casts the value to `str`);
`info` a `st.info` box; `expander` a `st.expander` header.
-/
inductive OutItem where
  | md (text : String)
  | field (label : String) (value : String)
  | field2 (label : String) (v1 v2 : String)
  | textArea (label : String) (value : String)
  | info (text : String)
  | expander (label : String)
deriving DecidableEq

/-- `st.markdown(f"**label:** \x7bdata.get(key, 'N/A')\x7d")`. -/
def fieldOf (data : List (String × Json)) (label key : String) : OutItem :=
  OutItem.field label (pyStr (jGet data key (Json.str "N/A")))

/-- The loop body at `main.py:166-168`: one bullet line per element of
`Routing and Destination` that is a dict; non-dict elements are skipped. -/
def routing_lines : List Json → List OutItem
  | [] => []
  | Json.obj f :: rest =>
      OutItem.field2 "• To | By"
        (pyStr (jGet f "to" (Json.str "N/A")))
        (pyStr (jGet f "by" (Json.str "N/A"))) :: routing_lines rest
  | _ :: rest => routing_lines rest

/-- The routing branch at `main.py:163-170`. -/
def routing_section (data : List (String × Json)) : List OutItem :=
  match jGet data "Routing and Destination" (Json.arr []) with
  | Json.arr (x :: xs) => OutItem.md "**Routing Information:**" :: routing_lines (x :: xs)
  | _ => [OutItem.md "**Routing Information:** N/A"]

/-- The body of one goods row (`main.py:181-199`), with the enumeration
index `i` (0-based) appearing in the expander label and text-area label. -/
def goods_row_items (i : Nat) (f : List (String × Json)) : List OutItem :=
  [ OutItem.expander ("Item " ++ toString (i + 1)),
    OutItem.field "Pieces" (pyStr (jGet f "No. of Pieces RCP" (Json.str "N/A"))),
    OutItem.field2 "Gross Weight"
      (pyStr (jGet f "Gross Weight" (Json.str "N/A")))
      (pyStr (jGet f "kg/lb" (Json.str ""))),
    OutItem.field "Chargeable Weight" (pyStr (jGet f "Chargeable Weight" (Json.str "N/A"))),
    OutItem.field "Rate" (pyStr (jGet f "Rate" (Json.str "N/A"))),
    OutItem.field "Charge" (pyStr (jGet f "Charge" (Json.str "N/A"))),
    OutItem.field "Total" (pyStr (jGet f "Total" (Json.str "N/A"))),
    OutItem.field "Rate Class/Commodity"
      (pyStr (jGet f "Rate Class / Commodity Item No." (Json.str "N/A"))),
    OutItem.textArea ("Nature and Quantity of Goods " ++ toString (i + 1))
      (pyStr (jGet f "Nature and Quantity of Goods (incl. Dimensions or Volume)" (Json.str "N/A"))) ]

/-- The `for i, item in enumerate(goods_data)` loop (`main.py:179-199`):
non-dict elements are skipped but still consume an index. -/
def goods_rows (i : Nat) : List Json → List OutItem
  | [] => []
  | Json.obj f :: rest => goods_row_items i f ++ goods_rows (i + 1) rest
  | _ :: rest => goods_rows (i + 1) rest

/-- The goods branch at `main.py:176-201`. -/
def goods_section (data : List (String × Json)) : List OutItem :=
  match jGet data "Goods Description Table Rows" (Json.arr []) with
  | Json.arr (x :: xs) => goods_rows 0 (x :: xs)
  | _ => [OutItem.info "No goods description data available"]

/-- The body of one charges block (`main.py:211-241`); the three nested
charge dicts are guarded by `isinstance(., dict)` in both columns. -/
def charge_block_items (f : List (String × Json)) : List OutItem :=
  let wc := jGet f "Weight Charge" (Json.obj [])
  let vc := jGet f "Valuation Charge" (Json.obj [])
  let tax := jGet f "Tax" (Json.obj [])
  [OutItem.md "**Prepaid Charges:**"]
  ++ (match wc with
      | Json.obj w => [OutItem.field "• Weight Charge" (pyStr (jGet w "Prepaid" (Json.str "N/A")))]
      | _ => [])
  ++ (match vc with
      | Json.obj w => [OutItem.field "• Valuation Charge" (pyStr (jGet w "Prepaid" (Json.str "N/A")))]
      | _ => [])
  ++ (match tax with
      | Json.obj w => [OutItem.field "• Tax" (pyStr (jGet w "Prepaid" (Json.str "N/A")))]
      | _ => [])
  ++ [OutItem.field "Total Prepaid" (pyStr (jGet f "Total Prepaid" (Json.str "N/A")))]
  ++ [OutItem.md "**Collect Charges:**"]
  ++ (match wc with
      | Json.obj w => [OutItem.field "• Weight Charge" (pyStr (jGet w "Collect" (Json.str "N/A")))]
      | _ => [])
  ++ (match vc with
      | Json.obj w => [OutItem.field "• Valuation Charge" (pyStr (jGet w "Collect" (Json.str "N/A")))]
      | _ => [])
  ++ (match tax with
      | Json.obj w => [OutItem.field "• Tax" (pyStr (jGet w "Collect" (Json.str "N/A")))]
      | _ => [])
  ++ [OutItem.field "Total Collect" (pyStr (jGet f "Total Collect" (Json.str "N/A")))]

/-- The `for charge_detail in charges_data` loop (`main.py:210-241`):
non-dict elements are skipped. -/
def charges_blocks : List Json → List OutItem
  | [] => []
  | Json.obj f :: rest => charge_block_items f ++ charges_blocks rest
  | _ :: rest => charges_blocks rest

/-- The charges branch at `main.py:207-243`. -/
def charges_section (data : List (String × Json)) : List OutItem :=
  match jGet data "Charges Details" (Json.arr []) with
  | Json.arr (x :: xs) => charges_blocks (x :: xs)
  | _ => [OutItem.info "No charges details available"]

/-- All output of `display_awb_data` up to and including the
"Additional Information" header (`main.py:112-263`), in emission order
(Streamlit executes the `with colN:` blocks sequentially). -/
def display_main (data : List (String × Json)) : List OutItem :=
  [ OutItem.md "---",
    OutItem.md "## 📋 Air Waybill Information",
    OutItem.md "### 📄 Document Details",
    fieldOf data "Air Waybill Number" "Air Waybill Number",
    fieldOf data "Flight/Date" "Flight/Date",
    fieldOf data "Currency Code" "Currency Code",
    fieldOf data "Airport of Departure" "Airport of Departure (Addr. of First Carrier) and Requested Routing",
    fieldOf data "Airport of Destination" "Airport of Destination",
    fieldOf data "Agent's IATA Code" "Agent's IATA Code",
    OutItem.md "---",
    OutItem.md "### 📤 Shipper Information",
    OutItem.textArea "Shipper's Name and Address" (pyStr (jGet data "Shipper's Name and Address" (Json.str "N/A"))),
    fieldOf data "Account Number" "Shipper's Account Number",
    OutItem.md "### 📥 Consignee Information",
    OutItem.textArea "Consignee's Name and Address" (pyStr (jGet data "Consignee's Name and Address" (Json.str "N/A"))),
    OutItem.md "---",
    OutItem.md "### 🏢 Agent & Routing Details",
    fieldOf data "Issuing Carrier's Agent" "Issuing Carrier's Agent Name and City",
    fieldOf data "Issued by" "Issued by",
    fieldOf data "Account No" "Account No" ]
  ++ routing_section data
  ++ [OutItem.md "---", OutItem.md "### 📦 Goods Description"]
  ++ goods_section data
  ++ [OutItem.md "---", OutItem.md "### 💰 Charges Details"]
  ++ charges_section data
  ++ [ OutItem.md "---",
       OutItem.md "### 📋 Declarations & Insurance",
       fieldOf data "Declared Value for Carriage" "Declared Value for Carriage",
       fieldOf data "Declared Value for Customs" "Declared Value for Customs",
       fieldOf data "Amount of Insurance" "Amount of Insurance",
       OutItem.md "---",
       OutItem.md "### ℹ️ Additional Information" ]

/--
Model of `if v and v.strip():` (`main.py:265` and `main.py:270`).
If `v` is truthy and not a `str`, Python raises `AttributeError` (only
`str` has `.strip`); that exception is the error value.  If `v` is a
truthy string the result tells whether the stripped string is non-empty
(Python `str.strip` removes surrounding whitespace, modelled by
`String.trim`).
-/
def strip_gate (v : Json) : Except String Bool :=
  if pyTruthy v then
    match v with
    | Json.str s => Except.ok (s.trim != "")
    | _ => Except.error ("AttributeError: " ++ pyTypeName v ++ " object has no attribute strip")
  else Except.ok false

/-- The trailing signature block (`main.py:276-285`). -/
def sig_items (data : List (String × Json)) : List OutItem :=
  [ OutItem.md "### ✍️ Signatures & Execution",
    fieldOf data "Executed on" "Executed on (date)",
    fieldOf data "At (place)" "at (place)",
    fieldOf data "Shipper/Agent Signature" "Signature of Shipper of his Agent",
    fieldOf data "Carrier/Agent Signature" "Signature of Issuing Carrier or its Agent" ]

/--
`display_awb_data` (`main.py:108-285`) on a decoded mapping: the list of
output elements emitted before returning or before an exception escapes,
paired with the exception message if one is raised.  Streamlit renders
incrementally, so on an exception the items already emitted stay
visible.  The only failure points are the two `.strip()` calls
(`main.py:265,270`); every other access is a guarded `dict.get` and
every widget value is cast to `str`.
-/
def display_awb_data (data : List (String × Json)) : List OutItem × Option String :=
  let pre := display_main data
  match strip_gate (jGetOpt data "Handling Information") with
  | Except.error e => (pre, some e)
  | Except.ok showH =>
    let hItems := if showH
      then [OutItem.textArea "Handling Information" (pyStr (jGet data "Handling Information" (Json.str "N/A")))]
      else []
    match strip_gate (jGetOpt data "Accounting Information") with
    | Except.error e => (pre ++ hItems, some e)
    | Except.ok showA =>
      let aItems := if showA
        then [OutItem.textArea "Accounting Information" (pyStr (jGet data "Accounting Information" (Json.str "N/A")))]
        else []
      (pre ++ hItems ++ aItems ++ sig_items data, none)

/-- A value on which `v and v.strip()` cannot raise: either falsy or a
string. -/
def stripOk (v : Json) : Bool :=
  match v with
  | Json.str _ => true
  | _ => !pyTruthy v

/-- Records on which `display_awb_data` reaches no `.strip()` failure:
the `Handling Information` and `Accounting Information` values are
strings whenever they are truthy. -/
def stripSafe (data : List (String × Json)) : Bool :=
  stripOk (jGetOpt data "Handling Information") && stripOk (jGetOpt data "Accounting Information")

/-! ## Response recovery: the regex span match -/

/-- Whether a closing brace occurs in the list. -/
def hasClose : List Char → Bool
  | [] => false
  | c :: rest => c = '}' || hasClose rest

/--
The start position chosen by `re.search(r'\x7b.*\x7d', text, re.DOTALL)`
(`main.py:325`): the Python engine tries positions left to right, and
the pattern matches at position `i` exactly when `text[i] = '\x7b'` and
some `'\x7d'` occurs strictly later.
-/
def matchStart : List Char → Option Nat
  | [] => none
  | c :: rest =>
      if c = '{' && hasClose rest then some 0
      else (matchStart rest).map (· + 1)

/-- Index of the last occurrence of `c`, if any. -/
def lastIdx (c : Char) : List Char → Option Nat
  | [] => none
  | a :: rest =>
      match lastIdx c rest with
      | some j => some (j + 1)
      | none => if a = c then some 0 else none

/--
The span selected by `json_match.group(0)` for the pattern
`r'\x7b.*\x7d'` with `re.DOTALL` (`main.py:325-328`): the match starts
at the leftmost feasible position and the greedy `.*` extends to the
last `'\x7d'` of the text.
-/
def jsonSpan (s : String) : Option String :=
  match matchStart s.data with
  | none => none
  | some i =>
    match lastIdx '}' (s.data.drop i) with
    | none => none
    | some j => some (String.mk ((s.data.drop i).take (j + 1)))

/-- No brace character occurs in the list. -/
def brace_free (cs : List Char) : Bool :=
  cs.all (fun c => !(c = '{' || c = '}'))

/-! ## `json.loads` model -/

/-- The whitespace characters skipped by the Python JSON decoder. -/
def json_ws (c : Char) : Bool :=
  c = ' ' || c = '\t' || c = '\n' || c = '\r'

/-- Skip leading JSON whitespace. -/
def skip_ws : List Char → List Char
  | [] => []
  | c :: rest => if json_ws c then skip_ws rest else c :: rest

/-- Value of a hexadecimal digit. -/
def hexVal (c : Char) : Option Nat :=
  if '0' ≤ c && c ≤ '9' then some (c.toNat - 48)
  else if 'a' ≤ c && c ≤ 'f' then some (c.toNat - 87)
  else if 'A' ≤ c && c ≤ 'F' then some (c.toNat - 55)
  else none

/--
Body of a JSON string after the opening quote: the decoded characters
and the remaining input after the closing quote.  Mirrors the strict
Python decoder: unescaped control characters are rejected, the
escapes are the standard set plus `\uXXXX` (surrogate-pair recombination
is approximated by `Char.ofNat`; no claim uses non-BMP input).
-/
def parse_string_body : List Char → Except String (List Char × List Char)
  | [] => Except.error "Unterminated string"
  | '"' :: rest => Except.ok ([], rest)
  | '\\' :: '"' :: rest => (parse_string_body rest).map (fun p => ('"' :: p.1, p.2))
  | '\\' :: '\\' :: rest => (parse_string_body rest).map (fun p => ('\\' :: p.1, p.2))
  | '\\' :: '/' :: rest => (parse_string_body rest).map (fun p => ('/' :: p.1, p.2))
  | '\\' :: 'b' :: rest => (parse_string_body rest).map (fun p => (Char.ofNat 8 :: p.1, p.2))
  | '\\' :: 'f' :: rest => (parse_string_body rest).map (fun p => (Char.ofNat 12 :: p.1, p.2))
  | '\\' :: 'n' :: rest => (parse_string_body rest).map (fun p => ('\n' :: p.1, p.2))
  | '\\' :: 'r' :: rest => (parse_string_body rest).map (fun p => ('\r' :: p.1, p.2))
  | '\\' :: 't' :: rest => (parse_string_body rest).map (fun p => ('\t' :: p.1, p.2))
  | '\\' :: 'u' :: a :: b :: c :: d :: rest =>
      match hexVal a, hexVal b, hexVal c, hexVal d with
      | some x, some y, some z, some w =>
          (parse_string_body rest).map
            (fun p => (Char.ofNat (((x * 16 + y) * 16 + z) * 16 + w) :: p.1, p.2))
      | _, _, _, _ => Except.error "Invalid uXXXX escape"
  | '\\' :: _ => Except.error "Invalid escape"
  | c :: rest =>
      if c.toNat < 32 then Except.error "Invalid control character"
      else (parse_string_body rest).map (fun p => (c :: p.1, p.2))

/-- Leading decimal digits and the rest. -/
def take_digits : List Char → List Char × List Char
  | [] => ([], [])
  | c :: rest =>
      if c.isDigit then
        let p := take_digits rest
        (c :: p.1, p.2)
      else ([], c :: rest)

/-- Numeric value of a digit list. -/
def digits_val (cs : List Char) : Nat :=
  cs.foldl (fun acc c => acc * 10 + (c.toNat - 48)) 0

/--
The number grammar of the Python JSON decoder
(`-?(0|[1-9][0-9]*)(.[0-9]+)?([eE][+-]?[0-9]+)?`), starting at the first
digit (the sign is handled by the caller).  As in the Python regex, a
`.` or `e` not followed by digits simply ends the number.  Integer
literals give `Json.int`, others `Json.float` (mantissa and decimal
exponent).
-/
def parse_number (neg : Bool) (cs : List Char) : Except String (Json × List Char) :=
  match cs with
  | [] => Except.error "Expecting value"
  | c :: rest =>
    if !c.isDigit then Except.error "Expecting value"
    else
      let ip : List Char × List Char :=
        if c = '0' then ([c], rest)
        else take_digits (c :: rest)
      let intPart := digits_val ip.1
      let afterInt := ip.2
      let fp : List Char × List Char :=
        match afterInt with
        | '.' :: d :: rest2 =>
            if d.isDigit then take_digits (d :: rest2) else ([], afterInt)
        | _ => ([], afterInt)
      let fracDigits := fp.1
      let afterFrac := if fracDigits.isEmpty then afterInt else fp.2
      let ep : Option (Int × List Char) :=
        match afterFrac with
        | e :: rest2 =>
            if e = 'e' || e = 'E' then
              match rest2 with
              | '+' :: d :: rest3 =>
                  if d.isDigit then
                    let q := take_digits (d :: rest3)
                    some ((digits_val q.1 : Int), q.2)
                  else none
              | '-' :: d :: rest3 =>
                  if d.isDigit then
                    let q := take_digits (d :: rest3)
                    some (-(digits_val q.1 : Int), q.2)
                  else none
              | d :: rest3 =>
                  if d.isDigit then
                    let q := take_digits (d :: rest3)
                    some ((digits_val q.1 : Int), q.2)
                  else none
              | [] => none
            else none
        | [] => none
      let mantissa : Int := (intPart * 10 ^ fracDigits.length + digits_val fracDigits : Nat)
      let mantissa := if neg then -mantissa else mantissa
      match ep with
      | some (ex, restE) =>
          Except.ok (Json.float mantissa (ex - fracDigits.length), restE)
      | none =>
          if fracDigits.isEmpty then Except.ok (Json.int mantissa, afterFrac)
          else Except.ok (Json.float mantissa (-(fracDigits.length : Int)), fp.2)

/-- Python dict insertion `d[k] = v`: replaces in place on a duplicate
key, else appends (JSON object decoding keeps the last duplicate). -/
def objInsert (fields : List (String × Json)) (k : String) (v : Json) : List (String × Json) :=
  match fields with
  | [] => [(k, v)]
  | (k', v') :: rest => if k' = k then (k', v) :: rest else (k', v') :: objInsert rest k v

mutual
/--
One JSON value starting at `cs` (whitespace already allowed in front),
returning the value and the remaining input.  Mirrors the Python
decoder, including its `NaN` / `Infinity` / `-Infinity` extensions.
Error messages are abbreviated forms of the `json.JSONDecodeError`
messages.  `fuel` only bounds recursion; every recursive call consumes
at least one character, so `length + 1` fuel never runs out.
-/
def parse_value : Nat → List Char → Except String (Json × List Char)
  | 0, _ => Except.error "Out of fuel"
  | fuel + 1, cs =>
    match skip_ws cs with
    | [] => Except.error "Expecting value"
    | '{' :: rest =>
        (match skip_ws rest with
         | '}' :: rest2 => Except.ok (Json.obj [], rest2)
         | other => parse_members fuel [] other)
    | '[' :: rest =>
        (match skip_ws rest with
         | ']' :: rest2 => Except.ok (Json.arr [], rest2)
         | other => parse_items fuel [] other)
    | '"' :: rest => (parse_string_body rest).map (fun p => (Json.str (String.mk p.1), p.2))
    | 't' :: 'r' :: 'u' :: 'e' :: rest => Except.ok (Json.bool true, rest)
    | 'f' :: 'a' :: 'l' :: 's' :: 'e' :: rest => Except.ok (Json.bool false, rest)
    | 'n' :: 'u' :: 'l' :: 'l' :: rest => Except.ok (Json.null, rest)
    | 'N' :: 'a' :: 'N' :: rest => Except.ok (Json.nan, rest)
    | 'I' :: 'n' :: 'f' :: 'i' :: 'n' :: 'i' :: 't' :: 'y' :: rest => Except.ok (Json.inf false, rest)
    | '-' :: 'I' :: 'n' :: 'f' :: 'i' :: 'n' :: 'i' :: 't' :: 'y' :: rest => Except.ok (Json.inf true, rest)
    | '-' :: rest => parse_number true rest
    | other => parse_number false other

/-- The members of a JSON object, positioned at a key (not at `}`);
`acc` holds the members decoded so far. -/
def parse_members : Nat → List (String × Json) → List Char → Except String (Json × List Char)
  | 0, _, _ => Except.error "Out of fuel"
  | fuel + 1, acc, cs =>
    match cs with
    | '"' :: rest =>
      (match parse_string_body rest with
       | Except.error e => Except.error e
       | Except.ok (kchars, rest2) =>
         match skip_ws rest2 with
         | ':' :: rest3 =>
           (match parse_value fuel rest3 with
            | Except.error e => Except.error e
            | Except.ok (v, rest4) =>
              let acc2 := objInsert acc (String.mk kchars) v
              match skip_ws rest4 with
              | ',' :: rest5 => parse_members fuel acc2 (skip_ws rest5)
              | '}' :: rest5 => Except.ok (Json.obj acc2, rest5)
              | _ => Except.error "Expecting delimiter")
         | _ => Except.error "Expecting colon delimiter")
    | _ => Except.error "Expecting property name enclosed in double quotes"

/-- The items of a JSON array, positioned at a value (not at `]`). -/
def parse_items : Nat → List Json → List Char → Except String (Json × List Char)
  | 0, _, _ => Except.error "Out of fuel"
  | fuel + 1, acc, cs =>
    match parse_value fuel cs with
    | Except.error e => Except.error e
    | Except.ok (v, rest) =>
      match skip_ws rest with
      | ',' :: rest2 => parse_items fuel (acc ++ [v]) rest2
      | ']' :: rest2 => Except.ok (Json.arr (acc ++ [v]), rest2)
      | _ => Except.error "Expecting delimiter"
end

/--
`json.loads` (`main.py:329`): decode the whole string as one JSON value
(with trailing whitespace allowed, anything further is `Extra data`).
-/
def jsonDecode (s : String) : Except String Json :=
  match parse_value (s.data.length + 1) s.data with
  | Except.error e => Except.error e
  | Except.ok (v, rest) =>
    match skip_ws rest with
    | [] => Except.ok v
    | _ => Except.error "Extra data"

end AWB


namespace AWB

/-! ## `json.dumps(data, indent=2)` model -/

/-- Lowercase hexadecimal digit. -/
def hexDigit (n : Nat) : Char :=
  if n < 10 then Char.ofNat (48 + n) else Char.ofNat (87 + n)

/-- Four lowercase hex digits of `n` (a `\\uXXXX` payload). -/
def hex4 (n : Nat) : List Char :=
  [hexDigit (n / 4096 % 16), hexDigit (n / 256 % 16), hexDigit (n / 16 % 16), hexDigit (n % 16)]

/--
The escaping applied by `json.dumps` with its default `ensure_ascii`:
quote, backslash and the short control escapes, `\\u00xx` for other
control characters, `\\uXXXX` (with a surrogate pair above the BMP) for
every non-ASCII character.
-/
def escape_json_char (c : Char) : List Char :=
  if c = '"' then ['\\', '"']
  else if c = '\\' then ['\\', '\\']
  else if c = '\n' then ['\\', 'n']
  else if c = '\t' then ['\\', 't']
  else if c = '\r' then ['\\', 'r']
  else if c = Char.ofNat 8 then ['\\', 'b']
  else if c = Char.ofNat 12 then ['\\', 'f']
  else if c.toNat < 32 then '\\' :: 'u' :: hex4 c.toNat
  else if c.toNat < 128 then [c]
  else if c.toNat < 65536 then '\\' :: 'u' :: hex4 c.toNat
  else
    let n := c.toNat - 65536
    ('\\' :: 'u' :: hex4 (55296 + n / 1024)) ++ ('\\' :: 'u' :: hex4 (56320 + n % 1024))

/-- A JSON string literal for `s` as `json.dumps` writes it. -/
def json_quote (s : String) : String :=
  "\"" ++ String.mk ((s.data.map escape_json_char).flatten) ++ "\""

/-- `n` spaces. -/
def nspaces (n : Nat) : String :=
  String.mk (List.replicate n ' ')

mutual
/-- `json.dumps(v, indent=2)` rendering of one value at indentation
`ind` (the indentation of the surrounding container).  Floats are
written in mantissa-exponent form (an approximation of Python float
repr; no claim inspects float output). -/
def json_dump_val (ind : Nat) : Json → String
  | Json.null => "null"
  | Json.bool true => "true"
  | Json.bool false => "false"
  | Json.int n => toString n
  | Json.float m e => toString m ++ "e" ++ toString e
  | Json.nan => "NaN"
  | Json.inf true => "-Infinity"
  | Json.inf false => "Infinity"
  | Json.str s => json_quote s
  | Json.arr [] => "[]"
  | Json.arr (x :: xs) =>
      "[\n" ++ json_dump_items (ind + 2) x xs ++ "\n" ++ nspaces ind ++ "]"
  | Json.obj [] => "\x7b\x7d"
  | Json.obj (f :: fs) =>
      "\x7b\n" ++ json_dump_fields (ind + 2) f fs ++ "\n" ++ nspaces ind ++ "\x7d"
termination_by v => sizeOf v

/-- The comma-and-newline separated items of a non-empty dumped array. -/
def json_dump_items (ind : Nat) (x : Json) (xs : List Json) : String :=
  match xs with
  | [] => nspaces ind ++ json_dump_val ind x
  | y :: ys => nspaces ind ++ json_dump_val ind x ++ ",\n" ++ json_dump_items ind y ys
termination_by sizeOf x + sizeOf xs

/-- The comma-and-newline separated members of a non-empty dumped object. -/
def json_dump_fields (ind : Nat) (f : String × Json) (fs : List (String × Json)) : String :=
  match f, fs with
  | (k, v), [] => nspaces ind ++ json_quote k ++ ": " ++ json_dump_val ind v
  | (k, v), g :: gs =>
      nspaces ind ++ json_quote k ++ ": " ++ json_dump_val ind v ++ ",\n"
        ++ json_dump_fields ind g gs
termination_by sizeOf f + sizeOf fs
end

/-- `json.dumps(data, indent=2)` (`main.py:336`). -/
def json_dumps_indent2 (v : Json) : String := json_dump_val 0 v

/-! ## The button handler (`main.py:305-361`) -/

/-- The file name of the download button (`main.py:340`):
`f"awb_data_\x7bdata.get('Air Waybill Number', 'unknown')\x7d.json"`. -/
def awb_file_name (data : List (String × Json)) : String :=
  "awb_data_" ++ pyStr (jGet data "Air Waybill Number" (Json.str "unknown")) ++ ".json"

/-- The two sidebar display toggles (`main.py:300-301`). -/
structure Config where
  show_raw_json : Bool
  download_json : Bool

/--
The observable end state of one press of the Extract button, given the
backend response text (`main.py:323-361`).  `success`: decoded record,
optional download payload (file name, file content), rendered items,
and whether the raw-JSON expander is shown.  `noJSONFound`: the regex
found no span; the error banner plus a text area holding the untouched
response are shown.  `caughtDecode`: `json.loads` raised; the
`except` branch shows the error message and the untouched response.
`caughtRender`: the render raised after the success banner and optional
download button were already emitted; the items emitted so far stay
visible and the `except` branch appends the error and raw text area.
The success banner and the timing boxes carry no record data and are
not modelled.
-/
inductive Outcome where
  | success (data : List (String × Json)) (download : Option (String × String))
      (items : List OutItem) (raw_view : Bool)
  | noJSONFound (raw : String)
  | caughtDecode (errMsg : String) (raw : String)
  | caughtRender (data : List (String × Json)) (download : Option (String × String))
      (partialItems : List OutItem) (errMsg : String) (raw : String)

/--
The parse-and-render block (`main.py:323-361`) as a function of the
response text.  A decoded non-object value would make `data.get` raise
`AttributeError` into the same `except` branch; it is unreachable
because every span handed to `json.loads` begins with a brace.
-/
def handle_response (cfg : Config) (response_text : String) : Outcome :=
  match jsonSpan response_text with
  | none => Outcome.noJSONFound response_text
  | some json_str =>
    match jsonDecode json_str with
    | Except.error e =>
        Outcome.caughtDecode ("An unexpected error occurred: " ++ e) response_text
    | Except.ok (Json.obj fields) =>
        let download :=
          if cfg.download_json
          then some (awb_file_name fields, json_dumps_indent2 (Json.obj fields))
          else none
        match display_awb_data fields with
        | (items, none) => Outcome.success fields download items cfg.show_raw_json
        | (items, some err) =>
            Outcome.caughtRender fields download items
              ("An unexpected error occurred: " ++ err) response_text
    | Except.ok _ =>
        Outcome.caughtDecode
          "An unexpected error occurred: AttributeError: get" response_text

/-! ## The backend wrapper `extract_awb_data` (`main.py:12-106`) -/

/-- The outcome of one call into an external collaborator (or a step
that can raise): a normal result or a raised exception message. -/
inductive StepResult (α : Type) where
  | ok (val : α)
  | raises (msg : String)

/-- The fixed extraction prompt (`main.py:37-87`), verbatim (the source
is a plain triple-quoted string, so its doubled braces are literal). -/
def awb_prompt : String :=
  "\n"
  ++ "        This is an Air Waybill, extract all information in it with the headers then export it in json format. Do not make up any header. Do not make up any information. Do not include ```json ... ``` in the output.\n"
  ++ "            \x7b\x7b\"Air Waybill Number\": \" \",\n"
  ++ "             \"Shipper's Name and Address\": \" \",\n"
  ++ "             \"Shipper's Account Number\": \" \",\n"
  ++ "             \"Consignee's Name and Address\": \" \",\n"
  ++ "             \"Issuing Carrier's Agent Name and City\": \"\",\n"
  ++ "             \"Issued by\": \" \",\n"
  ++ "             \"Agent's IATA Code\": \"\",\n"
  ++ "             \"Account No\": \"\",\n"
  ++ "             \"Airport of Departure (Addr. of First Carrier) and Requested Routing\": \"\",\n"
  ++ "             \"Routing and Destination\": [\x7b\x7b\"to\": \" \", \"by\": \" \"\x7d\x7d],\n"
  ++ "             \"Airport of Destination\": \" \",\n"
  ++ "             \"Flight/Date\": \" \",\n"
  ++ "             \"Handling Information\": \" \",\n"
  ++ "             \"Accounting Information\": \" \",\n"
  ++ "             \"Currency Code\": \" \",\n"
  ++ "             \"CHGS\": [\x7b\x7b\"CHGS Code\":\" \", \"WT/VAL\": [\x7b\x7b\"PPD\": \" \", \"COLL\":\" \"\x7d\x7d], \"Other\": [\x7b\x7b\"PPD\": \" \", \"COLL\":\" \"\x7d\x7d]\x7d\x7d],\n"
  ++ "             \"Declared Value for Carriage\": \" \",\n"
  ++ "             \"Declared Value for Customs\": \" \",\n"
  ++ "             \"Amount of Insurance\": \"\",\n"
  ++ "             \"Goods Description Table Rows\": [\n"
  ++ "                \x7b\x7b\n"
  ++ "                \"No. of Pieces RCP\": \"\",\n"
  ++ "                \"Gross Weight\": \"\",\n"
  ++ "                \"kg/lb\": \"\",\n"
  ++ "                \"Rate Class / Commodity Item No.\": \"\",\n"
  ++ "                \"Chargeable Weight\": \"\",\n"
  ++ "                \"Rate\": \"\",\n"
  ++ "                \"Charge\": \"\",\n"
  ++ "                \"Total\": \"\",\n"
  ++ "                \"Nature and Quantity of Goods (incl. Dimensions or Volume)\": \"\"\n"
  ++ "                \x7d\x7d],\n"
  ++ "             \"Charges Details\": [\n"
  ++ "                \x7b\x7b\n"
  ++ "                \"Weight Charge\": \x7b\x7b\"Prepaid\": \"\", \"Collect\": \"\"\x7d\x7d,\n"
  ++ "                \"Valuation Charge\": \x7b\x7b\"Prepaid\": \"\", \"Collect\": \"\"\x7d\x7d,\n"
  ++ "                \"Tax\": \x7b\x7b\"Prepaid\": \"\", \"Collect\": \"\"\x7d\x7d,\n"
  ++ "                \"Total Other Charges Due Agent\": \x7b\x7b\"Prepaid\": \"\", \"Collect\": \"\"\x7d\x7d,\n"
  ++ "                \"Total Other Charges Due Carrie\": \x7b\x7b\"Prepaid\": \"\", \"Collect\": \"\"\x7d\x7d,\n"
  ++ "                \"Total Prepaid\": \"\",\n"
  ++ "                \"Total Collect\": \"\",\n"
  ++ "                \"Currency Conversion Rates\": \"\",\n"
  ++ "                \"CC Charges at Dest Currency\":\"\"\n"
  ++ "                \x7d\x7d],\n"
  ++ "             \"Signature of Shipper of his Agent\": \"\",\n"
  ++ "             \"Executed on (date)\": \"\",\n"
  ++ "             \"at (place)\": \"\",\n"
  ++ "             \"Signature of Issuing Carrier or its Agent\": \"\"\n"
  ++ "            \x7d\x7d\n"
  ++ "        "

/--
The behaviour of the external collaborators used by one
`extract_awb_data` call: PDF rasterization (`convert_from_bytes`),
PNG encoding of a page (`page.save` + `buffer.getvalue()`), client
construction (`genai.Client`) and the remote call
(`client.models.generate_content`).  Page images and PNG byte strings
are opaque tokens.
-/
structure BackendEnv where
  convert_from_bytes : StepResult (List Nat)
  page_save : Nat → StepResult (List Nat)
  client_init : String → StepResult String
  generate_content : String → List Nat → String → StepResult String

/--
`extract_awb_data(pdf_bytes, api_key)` (`main.py:12-106`): the whole
body runs under `try`; any exception is caught and converted to the
string `"An error occurred: " + str(e)` returned through the same
channel as a successful response.  An empty image sequence raises
`ValueError` with the fixed message at `main.py:24`.
-/
def extract_awb_data (env : BackendEnv) (api_key : String) : String :=
  match env.convert_from_bytes with
  | StepResult.raises e => "An error occurred: " ++ e
  | StepResult.ok images =>
    match images with
    | [] => "An error occurred: Could not convert PDF to image. The file might be corrupted or empty."
    | page :: _ =>
      match env.page_save page with
      | StepResult.raises e => "An error occurred: " ++ e
      | StepResult.ok img_bytes =>
        match env.client_init api_key with
        | StepResult.raises e => "An error occurred: " ++ e
        | StepResult.ok client =>
          match env.generate_content client img_bytes awb_prompt with
          | StepResult.raises e => "An error occurred: " ++ e
          | StepResult.ok text => text

/-- One full request (`main.py:305-361`): backend call, then the
parse-and-render block on its textual result. -/
def run_request (env : BackendEnv) (api_key : String) (cfg : Config) : Outcome :=
  handle_response cfg (extract_awb_data env api_key)

end AWB


namespace AWB

/-! ## Derived descriptions used by the claims -/

/-- The bullet line for one conforming (dict) routing element; the
value on a non-dict argument is irrelevant (such elements are filtered
out before this is applied). -/
def route_item (r : Json) : OutItem :=
  match r with
  | Json.obj f =>
      OutItem.field2 "• To | By"
        (pyStr (jGet f "to" (Json.str "N/A")))
        (pyStr (jGet f "by" (Json.str "N/A")))
  | _ => OutItem.md ""

/-- The output of one enumerated goods element: a full row for a dict,
nothing for a non-conforming element. -/
def goods_item (p : Nat × Json) : List OutItem :=
  match p.2 with
  | Json.obj f => goods_row_items p.1 f
  | _ => []

/-- The output of one charges element: a full block for a dict, nothing
for a non-conforming element. -/
def charge_item (r : Json) : List OutItem :=
  match r with
  | Json.obj f => charge_block_items f
  | _ => []

/-- Whether an output element shows only the `"N/A"` placeholder in its
value positions (elements without a value position pass). -/
def absent_placeholder (it : OutItem) : Bool :=
  match it with
  | OutItem.field _ v => v == "N/A"
  | OutItem.field2 _ a b => a == "N/A" && b == "N/A"
  | OutItem.textArea _ v => v == "N/A"
  | _ => true

end AWB

namespace AWB

/-! ## Lemmas about the renderer -/

/-- A strip-safe value never makes `v and v.strip()` raise. -/
theorem strip_gate_ok (v : Json) (h : stripOk v = true) :
    ∃ b, strip_gate v = Except.ok b := by
  cases hP : pyTruthy v with
  | false => exact ⟨false, by simp [strip_gate, hP]⟩
  | true =>
    cases v with
    | str s => exact ⟨s.trim != "", by simp [strip_gate, hP]⟩
    | null => simp [stripOk, hP] at h
    | bool b => simp [stripOk, hP] at h
    | int n => simp [stripOk, hP] at h
    | float m e => simp [stripOk, hP] at h
    | nan => simp [stripOk, hP] at h
    | inf neg => simp [stripOk, hP] at h
    | arr xs => simp [stripOk, hP] at h
    | obj fs => simp [stripOk, hP] at h

/-- On a strip-safe record the renderer raises nothing. -/
theorem display_no_error (d : List (String × Json)) (h : stripSafe d = true) :
    (display_awb_data d).2 = none := by
  have h1 : stripOk (jGetOpt d "Handling Information") = true :=
    (Bool.and_eq_true _ _).mp h |>.1
  have h2 : stripOk (jGetOpt d "Accounting Information") = true :=
    (Bool.and_eq_true _ _).mp h |>.2
  obtain ⟨b1, hb1⟩ := strip_gate_ok _ h1
  obtain ⟨b2, hb2⟩ := strip_gate_ok _ h2
  simp only [display_awb_data, hb1, hb2]

/-- Whatever the record, the items up to the Additional Information
header are emitted. -/
theorem display_main_mem (d : List (String × Json)) (it : OutItem)
    (h : it ∈ display_main d) : it ∈ (display_awb_data d).1 := by
  unfold display_awb_data
  cases hg1 : strip_gate (jGetOpt d "Handling Information") with
  | error e => simpa using h
  | ok b1 =>
    cases hg2 : strip_gate (jGetOpt d "Accounting Information") with
    | error e => simp only [List.mem_append]; left; exact h
    | ok b2 => simp only [List.mem_append]; left; left; left; exact h

/-- When `Goods Description Table Rows` is absent, the empty list, or
not a list, the goods branch shows exactly the no-data info box. -/
theorem goods_section_no_data (d : List (String × Json))
    (h : jLookup d "Goods Description Table Rows" = none
       ∨ jLookup d "Goods Description Table Rows" = some (Json.arr [])
       ∨ ∀ xs, jLookup d "Goods Description Table Rows" ≠ some (Json.arr xs)) :
    goods_section d = [OutItem.info "No goods description data available"] := by
  unfold goods_section jGet
  rcases h with h | h | h
  · simp [h]
  · simp [h]
  · cases hv : jLookup d "Goods Description Table Rows" with
    | none => simp
    | some v =>
      cases v <;> simp
      · rename_i xs
        cases xs with
        | nil => simp
        | cons x xs' => exact absurd hv (h (x :: xs'))

/-- The no-data info box of the goods branch is in the main item list. -/
theorem goods_info_mem_main (d : List (String × Json))
    (h : goods_section d = [OutItem.info "No goods description data available"]) :
    OutItem.info "No goods description data available" ∈ display_main d := by
  simp [display_main, h]

/-- The sequential routing loop renders exactly the dict elements. -/
theorem routing_lines_eq_filter (l : List Json) :
    routing_lines l = (l.filter Json.isObj).map route_item := by
  induction l with
  | nil => rfl
  | cons x rest ih =>
    cases x <;> simp [routing_lines, Json.isObj, List.filter, route_item, ih]

/-- The enumerated goods loop renders exactly the dict elements, each
with its original enumeration index. -/
theorem goods_rows_eq_filter (i : Nat) (l : List Json) :
    goods_rows i l
      = ((List.enumFrom i l).filter (fun p => p.2.isObj)).flatMap goods_item := by
  induction l generalizing i with
  | nil => rfl
  | cons x rest ih =>
    cases x <;>
      simp [goods_rows, List.enumFrom, Json.isObj, List.filter, goods_item, ih]

/-- The charges loop renders exactly the dict elements. -/
theorem charges_blocks_eq_filter (l : List Json) :
    charges_blocks l = (l.filter Json.isObj).flatMap charge_item := by
  induction l with
  | nil => rfl
  | cons x rest ih =>
    cases x <;> simp [charges_blocks, Json.isObj, List.filter, charge_item, ih]

end AWB

namespace AWB

/-! ## Lemmas about the regex span match -/

/-- `hasClose` decides membership of the closing brace. -/
theorem hasClose_iff (l : List Char) : hasClose l = true ↔ '}' ∈ l := by
  induction l with
  | nil => simp [hasClose]
  | cons c rest ih =>
    rw [hasClose]
    constructor
    · intro h
      rcases Bool.or_eq_true _ _ |>.mp h with h1 | h2
      · have h1c : c = '}' := by simpa using h1
        exact List.mem_cons.mpr (Or.inl h1c.symm)
      · exact List.mem_cons.mpr (Or.inr (ih.mp h2))
    · intro h
      rcases List.mem_cons.mp h with h1 | h2
      · exact Bool.or_eq_true _ _ |>.mpr (Or.inl (by simp [h1.symm]))
      · exact Bool.or_eq_true _ _ |>.mpr (Or.inr (ih.mpr h2))

/-- `lastIdx` returns `none` exactly on lists without the character. -/
theorem lastIdx_none_iff (c : Char) (l : List Char) :
    lastIdx c l = none ↔ c ∉ l := by
  induction l with
  | nil => simp [lastIdx]
  | cons a rest ih =>
    rw [lastIdx]
    cases hm : lastIdx c rest with
    | some j => simp [← ih, hm]
    | none =>
      by_cases ha : a = c
      · simp [ha, ← ih, hm]
      · simp [ha, ← ih, hm, Ne.symm ha]

/-- Soundness of `matchStart`: the returned position carries an opening
brace, some closing brace occurs strictly later, and no earlier opening
brace exists. -/
theorem matchStart_sound (cs : List Char) (i : Nat) (h : matchStart cs = some i) :
    cs.get? i = some '{'
    ∧ (∃ j, i < j ∧ cs.get? j = some '}')
    ∧ ∀ k, k < i → cs.get? k ≠ some '{' := by
  induction cs generalizing i with
  | nil => simp [matchStart] at h
  | cons c rest ih =>
    by_cases hc : (decide (c = '{') && hasClose rest) = true
    · rw [matchStart, if_pos hc] at h
      obtain ⟨hc1, hc2⟩ := Bool.and_eq_true _ _ |>.mp hc
      have hc1' : c = '{' := by simpa using hc1
      have h0 : i = 0 := by simpa using h.symm
      subst h0
      refine ⟨by simp [hc1'], ?_, ?_⟩
      · obtain ⟨j0, hj0⟩ := List.mem_iff_get?.mp ((hasClose_iff rest).mp hc2)
        exact ⟨j0 + 1, Nat.succ_pos j0, by simpa using hj0⟩
      · intro k hk; omega
    · rw [matchStart, if_neg hc] at h
      cases hm : matchStart rest with
      | none => rw [hm] at h; simp at h
      | some i' =>
        rw [hm] at h
        have hi : i = i' + 1 := by simpa using h.symm
        subst hi
        obtain ⟨h1, ⟨j', hj', hj2⟩, h3⟩ := ih i' hm
        refine ⟨by simpa using h1, ⟨j' + 1, by omega, by simpa using hj2⟩, ?_⟩
        intro k hk
        cases k with
        | zero =>
          intro hk0
          have hcc : c = '{' := by simpa using hk0
          have hcl : hasClose rest = true := (hasClose_iff rest).mpr (List.get?_mem hj2)
          simp [hcc, hcl] at hc
        | succ k' =>
          intro hh
          exact h3 k' (by omega) (by simpa using hh)

/-- Completeness of `matchStart`: the first opening brace wins whenever
a closing brace occurs after it. -/
theorem matchStart_complete (cs : List Char) (a : Nat)
    (hget : cs.get? a = some '{')
    (hclose : ∃ j, a < j ∧ cs.get? j = some '}')
    (hmin : ∀ k, k < a → cs.get? k ≠ some '{') :
    matchStart cs = some a := by
  induction cs generalizing a with
  | nil => simp at hget
  | cons c rest ih =>
    cases a with
    | zero =>
      have hc : c = '{' := by simpa using hget
      obtain ⟨j, hj, hj2⟩ := hclose
      cases j with
      | zero => omega
      | succ j' =>
        have hmem : '}' ∈ rest := List.get?_mem (by simpa using hj2)
        have hcl : hasClose rest = true := (hasClose_iff rest).mpr hmem
        rw [matchStart, if_pos (by simp [hc, hcl])]
    | succ a' =>
      have hc0 : c ≠ '{' := by
        have := hmin 0 (Nat.succ_pos a')
        simpa using this
      have hclose' : ∃ j, a' < j ∧ rest.get? j = some '}' := by
        obtain ⟨j, hj, hj2⟩ := hclose
        cases j with
        | zero => omega
        | succ j' => exact ⟨j', by omega, by simpa using hj2⟩
      have hmin' : ∀ k, k < a' → rest.get? k ≠ some '{' := by
        intro k hk hh
        exact hmin (k + 1) (by omega) (by simpa using hh)
      rw [matchStart, if_neg (by simp [hc0]), ih a' (by simpa using hget) hclose' hmin']
      rfl

/-- A brace-free text admits no match. -/
theorem matchStart_none_of_brace_free (cs : List Char) (h : brace_free cs = true) :
    matchStart cs = none := by
  induction cs with
  | nil => rfl
  | cons c rest ih =>
    simp only [brace_free, List.all_cons, Bool.and_eq_true] at h
    have hc : c ≠ '{' := by
      intro hc; subst hc; simp at h
    rw [matchStart, if_neg (by simp [hc]), ih h.2]
    rfl

/-- Soundness of `lastIdx`: the returned index carries the character
and nothing later does. -/
theorem lastIdx_sound (c : Char) (cs : List Char) (b : Nat) (h : lastIdx c cs = some b) :
    cs.get? b = some c ∧ ∀ k, b < k → cs.get? k ≠ some c := by
  induction cs generalizing b with
  | nil => simp [lastIdx] at h
  | cons a rest ih =>
    rw [lastIdx] at h
    cases hm : lastIdx c rest with
    | some j =>
      rw [hm] at h
      have hb : b = j + 1 := by simpa using h.symm
      subst hb
      obtain ⟨h1, h2⟩ := ih j hm
      refine ⟨by simpa using h1, ?_⟩
      intro k hk
      cases k with
      | zero => omega
      | succ k' =>
        intro hh
        exact h2 k' (by omega) (by simpa using hh)
    | none =>
      rw [hm] at h
      by_cases ha : a = c
      · rw [if_pos ha] at h
        have hb : b = 0 := by simpa using h.symm
        subst hb
        refine ⟨by simp [ha], ?_⟩
        intro k hk
        cases k with
        | zero => omega
        | succ k' =>
          intro hh
          have : c ∈ rest := List.get?_mem (by simpa using hh)
          exact (lastIdx_none_iff c rest).mp hm this
      · rw [if_neg ha] at h; cases h

/-- Completeness of `lastIdx`: any occurrence bounds the result below. -/
theorem lastIdx_complete (c : Char) (cs : List Char) (j : Nat) (h : cs.get? j = some c) :
    ∃ b, lastIdx c cs = some b ∧ j ≤ b := by
  induction cs generalizing j with
  | nil => simp at h
  | cons a rest ih =>
    cases hm : lastIdx c rest with
    | some b' =>
      refine ⟨b' + 1, by rw [lastIdx, hm], ?_⟩
      cases j with
      | zero => omega
      | succ j' =>
        obtain ⟨b'', hb'', hle⟩ := ih j' (by simpa using h)
        rw [hm] at hb''
        have hbb : b' = b'' := by simpa using hb''
        omega
    | none =>
      cases j with
      | zero =>
        have ha : a = c := by simpa using h
        exact ⟨0, by rw [lastIdx, hm, if_pos ha], le_refl 0⟩
      | succ j' =>
        have : c ∈ rest := List.get?_mem (by simpa using h)
        exact absurd this ((lastIdx_none_iff c rest).mp hm)

/-- Dropping a prefix before the last occurrence shifts `lastIdx`. -/
theorem lastIdx_drop (c : Char) (cs : List Char) (a b : Nat)
    (h : lastIdx c cs = some b) (hab : a ≤ b) :
    lastIdx c (cs.drop a) = some (b - a) := by
  induction a generalizing cs b with
  | zero => simpa using h
  | succ a' ih =>
    cases cs with
    | nil => simp [lastIdx] at h
    | cons x rest =>
      rw [lastIdx] at h
      cases hm : lastIdx c rest with
      | none =>
        rw [hm] at h
        by_cases hx : x = c
        · rw [if_pos hx] at h
          have : b = 0 := by simpa using h.symm
          omega
        · rw [if_neg hx] at h; cases h
      | some j =>
        rw [hm] at h
        have hb : b = j + 1 := by simpa using h.symm
        subst hb
        have := ih rest j hm (by omega)
        have hgoal : (x :: rest).drop (a' + 1) = rest.drop a' := rfl
        rw [hgoal, this]
        congr 1
        omega

/-- `lastIdx` over an append prefers the second part. -/
theorem lastIdx_append (c : Char) (xs ys : List Char) :
    lastIdx c (xs ++ ys)
      = match lastIdx c ys with
        | some j => some (xs.length + j)
        | none => lastIdx c xs := by
  induction xs with
  | nil => cases hy : lastIdx c ys <;> simp [hy, lastIdx]
  | cons x rest ih =>
    rw [List.cons_append, lastIdx, ih, lastIdx]
    cases hy : lastIdx c ys with
    | some j => simp [Nat.succ_add]
    | none => cases hr : lastIdx c rest <;> simp

/-- The match of `\x7b.*\x7d` starts right after a brace-free prefix. -/
theorem matchStart_append (pre rest : List Char)
    (hpre : brace_free pre = true) (hc : hasClose rest = true) :
    matchStart (pre ++ '{' :: rest) = some pre.length := by
  induction pre with
  | nil => simp [matchStart, hc]
  | cons c p ih =>
    simp only [brace_free, List.all_cons, Bool.and_eq_true] at hpre
    have hc0 : c ≠ '{' := by
      intro hcc; subst hcc; simp at hpre
    rw [List.cons_append, matchStart, if_neg (by simp [hc0]),
      ih (by simpa [brace_free] using hpre.2)]
    rfl

/-- Any list ending in `c` (by `getLast?`) splits off that last element. -/
theorem getLast?_exists_append {α : Type} {l : List α} {c : α}
    (h : l.getLast? = some c) : ∃ t, l = t ++ [c] := by
  induction l with
  | nil => simp at h
  | cons a rest ih =>
    cases rest with
    | nil =>
      have : a = c := by simpa using h
      exact ⟨[], by simp [this]⟩
    | cons b r =>
      rw [List.getLast?_cons_cons] at h
      obtain ⟨t, ht⟩ := ih h
      exact ⟨a :: t, by simp [ht]⟩

/-- Evaluation rule for `jsonSpan` when a match exists. -/
theorem jsonSpan_eq_some (s : String) (i j : Nat)
    (h1 : matchStart s.data = some i)
    (h2 : lastIdx '}' (s.data.drop i) = some j) :
    jsonSpan s = some (String.mk ((s.data.drop i).take (j + 1))) := by
  simp only [jsonSpan, h1, h2]

/-- Evaluation rule for `jsonSpan` when no match exists. -/
theorem jsonSpan_eq_none (s : String) (h : matchStart s.data = none) :
    jsonSpan s = none := by
  simp only [jsonSpan, h]

/--
Core of the round-trip property: when a well-formed object text `J`
(starting with its opening brace and ending with its closing brace) is
embedded in brace-free surroundings, the regex span is exactly `J`.
-/
theorem jsonSpan_embed (pre J post : String)
    (hpre : brace_free pre.data = true) (hpost : brace_free post.data = true)
    (hhead : J.data.head? = some '{') (hlast : J.data.getLast? = some '}') :
    jsonSpan (pre ++ J ++ post) = some J := by
  obtain ⟨t, ht⟩ : ∃ t, J.data = '{' :: t := by
    cases hJ : J.data with
    | nil => rw [hJ] at hhead; simp at hhead
    | cons c r =>
      rw [hJ] at hhead
      have : c = '{' := by simpa using hhead
      exact ⟨r, by rw [this]⟩
  obtain ⟨t0, ht0⟩ : ∃ t0, '{' :: t = t0 ++ ['}'] :=
    getLast?_exists_append (ht ▸ hlast)
  have hmemt : '}' ∈ t := by
    cases t0 with
    | nil => simp at ht0
    | cons u u' =>
      injection ht0 with hu ht2
      simp [ht2]
  have hdata : (pre ++ J ++ post).data = pre.data ++ '{' :: (t ++ post.data) := by
    simp [String.data_append, ht]
  have hcl : hasClose (t ++ post.data) = true :=
    (hasClose_iff _).mpr (List.mem_append_left _ hmemt)
  have hpostnone : lastIdx '}' post.data = none := by
    rw [lastIdx_none_iff]
    intro hmem
    simp only [brace_free, List.all_eq_true] at hpost
    simpa using hpost _ hmem
  have hms : matchStart (pre ++ J ++ post).data = some pre.data.length := by
    rw [hdata]
    exact matchStart_append _ _ hpre hcl
  have hdrop : (pre ++ J ++ post).data.drop pre.data.length = (t0 ++ ['}']) ++ post.data := by
    rw [hdata]
    have hd := List.drop_left pre.data ('{' :: (t ++ post.data))
    rw [hd, show '{' :: (t ++ post.data) = ('{' :: t) ++ post.data from rfl, ht0]
  have hlast2 : lastIdx '}' ((t0 ++ ['}']) ++ post.data) = some t0.length := by
    have e1 : lastIdx '}' ['}'] = some 0 := rfl
    simp only [lastIdx_append, hpostnone, e1]
    simp
  have htake : ((pre ++ J ++ post).data.drop pre.data.length).take (t0.length + 1) = J.data := by
    rw [hdrop]
    have hlen : t0.length + 1 = (t0 ++ ['}']).length := by simp
    rw [hlen, List.take_left, ← ht0, ← ht]
  rw [jsonSpan_eq_some (pre ++ J ++ post) pre.data.length t0.length hms (by rw [hdrop]; exact hlast2)]
  rw [htake]

end AWB

namespace AWB

/-! ## Claim theorems -/

/--
Counterexample for claim C1.  The claim quantifies over every decoded
mapping, but on the record with `Accounting Information` equal to the
number `7` the render raises `AttributeError` at the `.strip()` call of
`main.py:270` (the value is truthy and not a string), so the render does
fail; moreover the same record holds a goods row missing `kg/lb`, whose
absent-key access (`main.py:186`) shows the empty string, not `"N/A"`.
-/
theorem c1_counterexample :
    (display_awb_data [("Accounting Information", Json.int 7),
        ("Goods Description Table Rows", Json.arr [Json.obj []])]).2
      = some "AttributeError: int object has no attribute strip"
    ∧ OutItem.field2 "Gross Weight" "N/A" ""
        ∈ (display_awb_data [("Accounting Information", Json.int 7),
            ("Goods Description Table Rows", Json.arr [Json.obj []])]).1 := by
  exact ⟨rfl, by decide⟩

/--
C1 (amended): every field access of `display_awb_data` defaults a
missing key rather than raising, so on every record whose
`Handling Information` and `Accounting Information` values are strings
whenever truthy the render finishes without an exception; and the record
missing every field renders the complete layout with every value
position showing the `"N/A"` placeholder.  (The goods-row `kg/lb`
access defaults to the empty string, and the Handling/Accounting text
areas are skipped rather than shown, but neither occurs on the empty
record.)
-/
theorem c1_display_robust :
    (∀ d, stripSafe d = true → (display_awb_data d).2 = none)
    ∧ (display_awb_data []).2 = none
    ∧ (display_awb_data []).1.all absent_placeholder = true := by
  refine ⟨display_no_error, rfl, ?_⟩
  rfl

/-- Witness for C1 at a concrete strip-safe record. -/
theorem c1_witness :
    stripSafe [("Flight/Date", Json.str "2024-01-01")] = true
    ∧ (display_awb_data [("Flight/Date", Json.str "2024-01-01")]).2 = none :=
  ⟨rfl, c1_display_robust.1 _ rfl⟩

/--
C2: for raw text made of one well-formed JSON object (a span that
starts with its opening brace, ends with its closing brace, and decodes
successfully) surrounded by brace-free prose, the extraction recovers
the object text exactly and decoding the extracted span yields the
embedded object.
-/
theorem c2_roundtrip (pre J post : String) (v : Json)
    (hpre : brace_free pre.data = true) (hpost : brace_free post.data = true)
    (hhead : J.data.head? = some '{') (hlast : J.data.getLast? = some '}')
    (hdec : jsonDecode J = Except.ok v) :
    jsonSpan (pre ++ J ++ post) = some J
    ∧ (jsonSpan (pre ++ J ++ post)).map jsonDecode = some (Except.ok v) := by
  have h := jsonSpan_embed pre J post hpre hpost hhead hlast
  exact ⟨h, by rw [h, Option.map_some', hdec]⟩

/-- Witness for C2: prose with code-fence markers around an object. -/
theorem c2_witness :
    jsonSpan ("Here is the data: ```json "
        ++ "\x7b\"Air Waybill Number\": \"020-12345678\"\x7d" ++ " ``` done")
      = some "\x7b\"Air Waybill Number\": \"020-12345678\"\x7d"
    ∧ (jsonSpan ("Here is the data: ```json "
        ++ "\x7b\"Air Waybill Number\": \"020-12345678\"\x7d" ++ " ``` done")).map jsonDecode
      = some (Except.ok (Json.obj [("Air Waybill Number", Json.str "020-12345678")])) :=
  c2_roundtrip "Here is the data: ```json "
    "\x7b\"Air Waybill Number\": \"020-12345678\"\x7d" " ``` done"
    (Json.obj [("Air Waybill Number", Json.str "020-12345678")]) rfl rfl rfl rfl rfl

/--
C3: whenever some opening brace is followed (strictly later) by some
closing brace, the selected span runs from the first opening brace of
the text to the last closing brace of the text — greedy, not
brace-depth-aware.
-/
theorem c3_span_first_to_last (s : String)
    (h : ∃ i j, i < j ∧ s.data.get? i = some '{' ∧ s.data.get? j = some '}') :
    ∃ a b,
      s.data.get? a = some '{'
      ∧ (∀ k, k < a → s.data.get? k ≠ some '{')
      ∧ s.data.get? b = some '}'
      ∧ (∀ k, b < k → s.data.get? k ≠ some '}')
      ∧ a < b
      ∧ jsonSpan s = some (String.mk ((s.data.drop a).take (b - a + 1))) := by
  obtain ⟨i, j, hij, hi, hj⟩ := h
  have hex : ∃ k, s.data.get? k = some '{' := ⟨i, hi⟩
  have ha : s.data.get? (Nat.find hex) = some '{' := Nat.find_spec hex
  have hmin : ∀ k, k < Nat.find hex → s.data.get? k ≠ some '{' :=
    fun k hk => Nat.find_min hex hk
  have hai : Nat.find hex ≤ i := Nat.find_min' hex hi
  obtain ⟨b, hb, hjb⟩ := lastIdx_complete '}' s.data j hj
  obtain ⟨hbget, hbmax⟩ := lastIdx_sound '}' s.data b hb
  have hab : Nat.find hex < b := by omega
  refine ⟨Nat.find hex, b, ha, hmin, hbget, hbmax, hab, ?_⟩
  have hms : matchStart s.data = some (Nat.find hex) :=
    matchStart_complete s.data (Nat.find hex) ha ⟨j, by omega, hj⟩ hmin
  have hld : lastIdx '}' (s.data.drop (Nat.find hex)) = some (b - Nat.find hex) :=
    lastIdx_drop '}' s.data (Nat.find hex) b hb (by omega)
  rw [jsonSpan_eq_some s (Nat.find hex) (b - Nat.find hex) hms hld]

/-- Witness for C3 on a text with nested and stray braces. -/
theorem c3_witness :
    ∃ a b,
      ("x\x7by\x7dz\x7d" : String).data.get? a = some '{'
      ∧ (∀ k, k < a → ("x\x7by\x7dz\x7d" : String).data.get? k ≠ some '{')
      ∧ ("x\x7by\x7dz\x7d" : String).data.get? b = some '}'
      ∧ (∀ k, b < k → ("x\x7by\x7dz\x7d" : String).data.get? k ≠ some '}')
      ∧ a < b
      ∧ jsonSpan "x\x7by\x7dz\x7d"
          = some (String.mk ((("x\x7by\x7dz\x7d" : String).data.drop a).take (b - a + 1))) :=
  c3_span_first_to_last "x\x7by\x7dz\x7d" ⟨1, 3, by decide, rfl, rfl⟩

end AWB

namespace AWB

/--
C4: on raw text with no opening brace followed by a closing brace, the
handler ends in the no-JSON-found state (`main.py:352-357`): an error
banner, no record, and a text area holding the original raw text
unchanged.
-/
theorem c4_no_json_found (cfg : Config) (raw : String)
    (h : ∀ i j, i < j → ¬(raw.data.get? i = some '{' ∧ raw.data.get? j = some '}')) :
    handle_response cfg raw = Outcome.noJSONFound raw := by
  have hms : matchStart raw.data = none := by
    cases hm : matchStart raw.data with
    | none => rfl
    | some i =>
      obtain ⟨h1, ⟨j, hij, h2⟩, _⟩ := matchStart_sound raw.data i hm
      exact absurd ⟨h1, h2⟩ (h i j hij)
  simp only [handle_response, jsonSpan_eq_none raw hms]

/-- Witness for C4 on brace-free model output. -/
theorem c4_witness :
    handle_response ⟨false, true⟩ "plain model text"
      = Outcome.noJSONFound "plain model text" :=
  c4_no_json_found ⟨false, true⟩ "plain model text"
    (fun _ _ _ hpair => absurd (List.get?_mem hpair.1) (by decide))

/--
C5: when the selected span does not decode, `json.loads` raises into
the `except` branch (`main.py:358-361`): the outcome carries the
decoder error detail and the untouched raw text, and no record is
rendered.
-/
theorem c5_malformed_json (cfg : Config) (raw s e : String)
    (hspan : jsonSpan raw = some s)
    (hdec : jsonDecode s = Except.error e) :
    handle_response cfg raw
      = Outcome.caughtDecode ("An unexpected error occurred: " ++ e) raw := by
  simp only [handle_response, hspan, hdec]

/-- Witness for C5 on a span with a trailing comma. -/
theorem c5_witness :
    handle_response ⟨false, true⟩ "x \x7b\"a\": 1,\x7d y"
      = Outcome.caughtDecode
          ("An unexpected error occurred: "
            ++ "Expecting property name enclosed in double quotes")
          "x \x7b\"a\": 1,\x7d y" :=
  c5_malformed_json ⟨false, true⟩ "x \x7b\"a\": 1,\x7d y" "\x7b\"a\": 1,\x7d"
    "Expecting property name enclosed in double quotes" rfl rfl

/--
Counterexample for claim C6.  On the record with goods data absent but
`Handling Information` equal to the number `1`, the goods no-data
indicator is shown yet the render still fails (the `.strip()` call at
`main.py:265` raises), so "rendering … does not fail" is false as a
property of every such record.
-/
theorem c6_counterexample :
    (display_awb_data [("Handling Information", Json.int 1)]).2
      = some "AttributeError: int object has no attribute strip"
    ∧ OutItem.info "No goods description data available"
        ∈ (display_awb_data [("Handling Information", Json.int 1)]).1 := by
  exact ⟨rfl, by decide⟩

/--
C6 (amended): whenever `Goods Description Table Rows` is absent, the
empty list, or not a list, the goods branch emits exactly the no-data
info box (which stays visible whatever happens later), and the goods
section itself raises nothing — the whole render finishes without an
exception provided the Handling/Accounting values are strings whenever
truthy.
-/
theorem c6_goods_no_data (d : List (String × Json))
    (h : jLookup d "Goods Description Table Rows" = none
       ∨ jLookup d "Goods Description Table Rows" = some (Json.arr [])
       ∨ ∀ xs, jLookup d "Goods Description Table Rows" ≠ some (Json.arr xs)) :
    OutItem.info "No goods description data available" ∈ (display_awb_data d).1
    ∧ (stripSafe d = true → (display_awb_data d).2 = none) :=
  ⟨display_main_mem d _ (goods_info_mem_main d (goods_section_no_data d h)),
   fun hs => display_no_error d hs⟩

/-- Witness for C6: goods field present but not a list. -/
theorem c6_witness :
    OutItem.info "No goods description data available"
      ∈ (display_awb_data [("Goods Description Table Rows", Json.str "none")]).1
    ∧ (display_awb_data [("Goods Description Table Rows", Json.str "none")]).2 = none :=
  ⟨(c6_goods_no_data _ (Or.inr (Or.inr (fun xs hxs => by simp [jLookup] at hxs)))).1,
   (c6_goods_no_data [("Goods Description Table Rows", Json.str "none")]
      (Or.inr (Or.inr (fun xs hxs => by simp [jLookup] at hxs)))).2 rfl⟩

/--
Counterexample for claim C7.  On a record whose routing list holds only
a non-dict element, that element is skipped, yet the whole render still
fails because `Handling Information` is the number `3` — so "never
failing the whole render" is false as stated.
-/
theorem c7_counterexample :
    (display_awb_data [("Routing and Destination", Json.arr [Json.str "x"]),
        ("Handling Information", Json.int 3)]).2
      = some "AttributeError: int object has no attribute strip" := rfl

/--
C7 (amended): the three nested-list loops render exactly their dict
elements — each non-conforming element contributes no output and raises
nothing (goods elements still consume their enumeration index) — and
the whole render finishes without an exception provided the
Handling/Accounting values are strings whenever truthy.
-/
theorem c7_nonconforming_skipped :
    (∀ l, routing_lines l = (l.filter Json.isObj).map route_item)
    ∧ (∀ i l, goods_rows i l
        = ((List.enumFrom i l).filter (fun p => p.2.isObj)).flatMap goods_item)
    ∧ (∀ l, charges_blocks l = (l.filter Json.isObj).flatMap charge_item)
    ∧ (∀ d, stripSafe d = true → (display_awb_data d).2 = none) :=
  ⟨routing_lines_eq_filter, goods_rows_eq_filter, charges_blocks_eq_filter,
   display_no_error⟩

/-- Witness for C7 at concrete inputs. -/
theorem c7_witness :
    routing_lines [Json.str "x", Json.obj [("to", Json.str "JFK")]]
      = ([Json.str "x", Json.obj [("to", Json.str "JFK")]].filter Json.isObj).map route_item
    ∧ (display_awb_data [("Currency Code", Json.str "USD")]).2 = none :=
  ⟨c7_nonconforming_skipped.1 _, c7_nonconforming_skipped.2.2.2 _ rfl⟩

end AWB

namespace AWB

/--
C8: whenever the handler reaches a successfully decoded record (whether
or not the render later raises) and the download toggle is on, the
exported file is named `awb_data_<Air Waybill Number>.json` — with the
literal fallback token `unknown` when the field is absent — and its
content is the pretty-printed (`indent=2`) dump of the decoded record;
in particular an extracted number `020-12345678` appears in the name.
-/
theorem c8_download_payload (cfg : Config) (raw : String)
    (hd : cfg.download_json = true) :
    (∀ data dl items rv,
        handle_response cfg raw = Outcome.success data dl items rv →
        dl = some (awb_file_name data, json_dumps_indent2 (Json.obj data)))
    ∧ (∀ data dl items emsg,
        handle_response cfg raw = Outcome.caughtRender data dl items emsg raw →
        dl = some (awb_file_name data, json_dumps_indent2 (Json.obj data)))
    ∧ (∀ data : List (String × Json),
        (∀ s, jLookup data "Air Waybill Number" = some (Json.str s) →
            awb_file_name data = "awb_data_" ++ s ++ ".json")
        ∧ (jLookup data "Air Waybill Number" = none →
            awb_file_name data = "awb_data_unknown.json")) := by
  refine ⟨?_, ?_, ?_⟩
  · intro data dl items rv h
    unfold handle_response at h
    split at h
    · exact Outcome.noConfusion h
    · split at h
      · exact Outcome.noConfusion h
      · split at h
        · split at h
          · injection h with h1 h2 h3 h4
            subst h1
            exact h2.symm
          · exact Outcome.noConfusion h
        · next hfalse => exact absurd hd hfalse
      · exact Outcome.noConfusion h
  · intro data dl items emsg h
    unfold handle_response at h
    split at h
    · exact Outcome.noConfusion h
    · split at h
      · exact Outcome.noConfusion h
      · split at h
        · split at h
          · exact Outcome.noConfusion h
          · injection h with h1 h2 h3 h4 h5
            subst h1
            exact h2.symm
        · next hfalse => exact absurd hd hfalse
      · exact Outcome.noConfusion h
  · intro data
    constructor
    · intro s hs
      simp [awb_file_name, jGet, hs, pyStr]
    · intro hnone
      simp [awb_file_name, jGet, hnone, pyStr, pyRepr]

/-- Witness for C8 on a response holding the scenario waybill number. -/
theorem c8_witness :
    (some ("awb_data_020-12345678.json",
        json_dumps_indent2 (Json.obj [("Air Waybill Number", Json.str "020-12345678")]))
      : Option (String × String))
      = some (awb_file_name [("Air Waybill Number", Json.str "020-12345678")],
          json_dumps_indent2 (Json.obj [("Air Waybill Number", Json.str "020-12345678")])) :=
  (c8_download_payload ⟨false, true⟩ "\x7b\"Air Waybill Number\": \"020-12345678\"\x7d" rfl).1
    [("Air Waybill Number", Json.str "020-12345678")] _
    (display_awb_data [("Air Waybill Number", Json.str "020-12345678")]).1 false rfl

/--
C9: when rasterization raises (with a brace-free exception message, as
the library messages are) or yields no pages, `extract_awb_data`
returns only the error string, the handler finds no JSON in it, and the
request terminates in the no-JSON failure state: no record is ever
produced or rendered, whatever the downstream collaborators would do.
-/
theorem c9_raster_failure (env : BackendEnv) (api_key : String) (cfg : Config) :
    (env.convert_from_bytes = StepResult.ok [] →
      run_request env api_key cfg
        = Outcome.noJSONFound
            "An error occurred: Could not convert PDF to image. The file might be corrupted or empty.")
    ∧ (∀ msg, env.convert_from_bytes = StepResult.raises msg →
        brace_free msg.data = true →
        run_request env api_key cfg
          = Outcome.noJSONFound ("An error occurred: " ++ msg)) := by
  constructor
  · intro h
    have hext : extract_awb_data env api_key
        = "An error occurred: Could not convert PDF to image. The file might be corrupted or empty." := by
      unfold extract_awb_data
      rw [h]
    have hms : matchStart ("An error occurred: Could not convert PDF to image. The file might be corrupted or empty." : String).data = none :=
      matchStart_none_of_brace_free _ (by rfl)
    unfold run_request
    rw [hext]
    simp only [handle_response, jsonSpan_eq_none _ hms]
  · intro msg h hbf
    have hext : extract_awb_data env api_key = "An error occurred: " ++ msg := by
      unfold extract_awb_data
      rw [h]
    have hbf2 : brace_free ("An error occurred: " ++ msg).data = true := by
      rw [String.data_append]
      simp only [brace_free, List.all_append, Bool.and_eq_true]
      exact ⟨by rfl, hbf⟩
    have hms := matchStart_none_of_brace_free _ hbf2
    unfold run_request
    rw [hext]
    simp only [handle_response, jsonSpan_eq_none _ hms]

/-- Witness for C9: an environment whose rasterizer yields no pages. -/
theorem c9_witness :
    run_request
      ⟨StepResult.ok [], fun _ => StepResult.ok [], fun _ => StepResult.ok "c",
        fun _ _ _ => StepResult.ok "t"⟩ "key" ⟨false, true⟩
      = Outcome.noJSONFound
          "An error occurred: Could not convert PDF to image. The file might be corrupted or empty." :=
  (c9_raster_failure _ "key" ⟨false, true⟩).1 rfl

/--
C10: `extract_awb_data` is total over its collaborators — whichever
internal step raises (rasterization, the empty-page check, image
encoding, client construction, or the remote call), no exception
propagates: the function returns `"An error occurred: "` followed by
the exception message through the same textual channel as a success.
-/
theorem c10_total_error_channel (env : BackendEnv) (api_key : String) :
    (∀ e, env.convert_from_bytes = StepResult.raises e →
        extract_awb_data env api_key = "An error occurred: " ++ e)
    ∧ (env.convert_from_bytes = StepResult.ok [] →
        extract_awb_data env api_key
          = "An error occurred: Could not convert PDF to image. The file might be corrupted or empty.")
    ∧ (∀ e page rest, env.convert_from_bytes = StepResult.ok (page :: rest) →
        env.page_save page = StepResult.raises e →
        extract_awb_data env api_key = "An error occurred: " ++ e)
    ∧ (∀ e page rest bytes, env.convert_from_bytes = StepResult.ok (page :: rest) →
        env.page_save page = StepResult.ok bytes →
        env.client_init api_key = StepResult.raises e →
        extract_awb_data env api_key = "An error occurred: " ++ e)
    ∧ (∀ e page rest bytes client, env.convert_from_bytes = StepResult.ok (page :: rest) →
        env.page_save page = StepResult.ok bytes →
        env.client_init api_key = StepResult.ok client →
        env.generate_content client bytes awb_prompt = StepResult.raises e →
        extract_awb_data env api_key = "An error occurred: " ++ e) := by
  refine ⟨?_, ?_, ?_, ?_, ?_⟩
  · intro e h
    unfold extract_awb_data
    simp only [h]
  · intro h
    unfold extract_awb_data
    simp only [h]
  · intro e page rest h1 h2
    unfold extract_awb_data
    simp only [h1, h2]
  · intro e page rest bytes h1 h2 h3
    unfold extract_awb_data
    simp only [h1, h2, h3]
  · intro e page rest bytes client h1 h2 h3 h4
    unfold extract_awb_data
    simp only [h1, h2, h3, h4]

/-- Witness for C10: the remote call raises. -/
theorem c10_witness :
    extract_awb_data
      ⟨StepResult.ok [7], fun _ => StepResult.ok [1], fun _ => StepResult.ok "client",
        fun _ _ _ => StepResult.raises "quota exceeded"⟩ "key"
      = "An error occurred: " ++ "quota exceeded" :=
  (c10_total_error_channel _ "key").2.2.2.2 "quota exceeded" 7 [] [1] "client"
    rfl rfl rfl rfl

end AWB
